import Mathlib

/-!
Shallow embedding of the inertia sandbox in `src/src/components/InertiaGame.tsx`.
Numbers are modelled as exact rationals; the random id and color draws in
`createObject` are modelled as explicit inputs.
-/

/-- A 2D point, as the `{ x, y }` records used for trail samples and mouse
coordinates in the source. -/
structure Point where
  x : ℚ
  y : ℚ
deriving DecidableEq, Repr

/-- The `GameObject` interface of the source (lines 4-14). -/
structure GameObject where
  id : String
  x : ℚ
  y : ℚ
  vx : ℚ
  vy : ℚ
  mass : ℚ
  color : String
  trail : List Point
  size : ℚ
deriving DecidableEq, Repr

/-- The `GameState` interface of the source (lines 16-26). -/
structure GameState where
  objects : List GameObject
  friction : ℚ
  gravity : Bool
  isLaunching : Bool
  launchStart : Option Point
  currentMouse : Option Point
  level : Nat
  score : ℚ
  isPlaying : Bool
deriving DecidableEq, Repr

/-- One entry of the `LEVELS` preset table (source lines 28-57). -/
structure LevelPreset where
  name : String
  description : String
  friction : ℚ
  gravity : Bool
  target : String
deriving DecidableEq, Repr

/-- The `LEVELS` preset table (source lines 28-57). -/
def LEVELS : List LevelPreset :=
  [ { name := "Frictionless Space",
      description := "Launch objects in space with no friction. Notice how they keep moving!",
      friction := 0, gravity := false,
      target := "Launch an object and observe continuous motion" },
    { name := "Air Resistance",
      description := "Add friction to see how external forces slow down objects",
      friction := 0.02, gravity := false,
      target := "Compare motion with and without friction" },
    { name := "Gravity Field",
      description := "Add gravity to see how forces change object motion",
      friction := 0.01, gravity := true,
      target := "Launch objects and watch gravity affect their path" },
    { name := "Real World",
      description := "Full physics with friction and gravity like on Earth",
      friction := 0.03, gravity := true,
      target := "Master inertia in realistic conditions" } ]

/-- Indexing `LEVELS[i]`; every index used by the source is in range, so the
default entry is never reached. -/
def getLevel (i : Nat) : LevelPreset :=
  (LEVELS.get? i).getD { name := "", description := "", friction := 0,
                         gravity := false, target := "" }

/-- The `createObject` callback (source lines 76-89).  The `Math.random()`
draws for the id and the palette color are modelled as the explicit inputs
`id` and `color`; mass is 1, the trail starts empty, the radius (`size`)
is 20. -/
def createObject (id color : String) (x y vx vy : ℚ) : GameObject :=
  { id := id, x := x, y := y, vx := vx, vy := vy, mass := 1,
    color := color, trail := [], size := 20 }

/-- The initial `gameState` (source lines 64-74). -/
def initialGameState : GameState :=
  { objects := [], friction := (getLevel 0).friction, gravity := (getLevel 0).gravity,
    isLaunching := false, launchStart := none, currentMouse := none,
    level := 0, score := 0, isPlaying := false }

/-- Trail truncation: `if (trail.length > 50) trail = trail.slice(-50)`
(source lines 113-115); `slice(-50)` keeps the last 50 entries. -/
def truncTrail (t : List Point) : List Point :=
  if 50 < t.length then t.drop (t.length - 50) else t

/-- The gravity block of `updatePhysics` (source lines 96-99):
`if (gravity) vy += 0.3`. -/
def applyGravity (gravity : Bool) (o : GameObject) : GameObject :=
  if gravity then { o with vy := o.vy + 0.3 } else o

/-- The friction block of `updatePhysics` (source lines 101-105):
`if (friction > 0) { vx *= 1 - friction; vy *= 1 - friction }`. -/
def applyFriction (friction : ℚ) (o : GameObject) : GameObject :=
  if 0 < friction then
    { o with vx := o.vx * (1 - friction), vy := o.vy * (1 - friction) }
  else o

/-- The position-update block of `updatePhysics` (source lines 107-109):
`x += vx; y += vy`. -/
def integrate (o : GameObject) : GameObject :=
  { o with x := o.x + o.vx, y := o.y + o.vy }

/-- The trail block of `updatePhysics` (source lines 111-115): push the new
position, keep at most the last 50 samples. -/
def appendTrail (o : GameObject) : GameObject :=
  { o with trail := truncTrail (o.trail ++ [{ x := o.x, y := o.y }]) }

/-- The wall-bounce block of `updatePhysics` (source lines 117-128), with the
canvas dimensions `w`, `h` passed explicitly: per axis, if the position is at
or past a wall, scale that velocity component by `-0.8` and clamp the
position into `[size, dimension - size]`. -/
def bounceWalls (w h : ℚ) (o : GameObject) : GameObject :=
  let o1 :=
    if o.x ≤ o.size ∨ w - o.size ≤ o.x then
      { o with vx := o.vx * (-0.8), x := max o.size (min (w - o.size) o.x) }
    else o
  if o1.y ≤ o1.size ∨ h - o1.size ≤ o1.y then
    { o1 with vy := o1.vy * (-0.8), y := max o1.size (min (h - o1.size) o1.y) }
  else o1

/-- The per-object body of `updatePhysics` (source lines 93-131), translated
block by block in source order: gravity, friction, integration, trail append,
wall bounce.  `w`, `h` are the canvas dimensions. -/
def stepObject (w h friction : ℚ) (gravity : Bool) (obj : GameObject) : GameObject :=
  let vy1 := if gravity then obj.vy + 0.3 else obj.vy
  let vx2 := if 0 < friction then obj.vx * (1 - friction) else obj.vx
  let vy2 := if 0 < friction then vy1 * (1 - friction) else vy1
  let x1 := obj.x + vx2
  let y1 := obj.y + vy2
  let trail1 := truncTrail (obj.trail ++ [{ x := x1, y := y1 }])
  let vx3 := if x1 ≤ obj.size ∨ w - obj.size ≤ x1 then vx2 * (-0.8) else vx2
  let x2 := if x1 ≤ obj.size ∨ w - obj.size ≤ x1 then
              max obj.size (min (w - obj.size) x1) else x1
  let vy3 := if y1 ≤ obj.size ∨ h - obj.size ≤ y1 then vy2 * (-0.8) else vy2
  let y2 := if y1 ≤ obj.size ∨ h - obj.size ≤ y1 then
              max obj.size (min (h - obj.size) y1) else y1
  { obj with x := x2, y := y2, vx := vx3, vy := vy3, trail := trail1 }

/-- The `updatePhysics` state update (source lines 91-135): step every object,
leave the rest of the state alone. -/
def updatePhysics (w h : ℚ) (s : GameState) : GameState :=
  { s with objects := s.objects.map (stepObject w h s.friction s.gravity) }

/-- The `handleCanvasMouseDown` handler (source lines 236-251), with the
canvas-relative coordinates as inputs. -/
def handleCanvasMouseDown (x y : ℚ) (s : GameState) : GameState :=
  { s with
    isLaunching := true, launchStart := some { x := x, y := y },
    currentMouse := some { x := x, y := y }, isPlaying := true }

/-- The `handleCanvasMouseMove` handler (source lines 253-267). -/
def handleCanvasMouseMove (x y : ℚ) (s : GameState) : GameState :=
  if s.isLaunching then { s with currentMouse := some { x := x, y := y } } else s

/-- The `handleCanvasMouseUp` handler (source lines 269-285): bail out unless
a launch is in progress with a recorded start and current mouse position;
otherwise append one new object with velocity 0.2 times the drag vector,
clear the gesture, and add the absolute velocity components to the score. -/
def handleCanvasMouseUp (id color : String) (s : GameState) : GameState :=
  match s.launchStart, s.currentMouse with
  | some start, some cur =>
      if s.isLaunching then
        let vx := (cur.x - start.x) * 0.2
        let vy := (cur.y - start.y) * 0.2
        let newObject := createObject id color start.x start.y vx vy
        { s with
          objects := s.objects ++ [newObject],
          isLaunching := false, launchStart := none, currentMouse := none,
          score := s.score + |vx| + |vy| }
      else s
  | _, _ => s

/-- The `resetGame` callback (source lines 287-295). -/
def resetGame (s : GameState) : GameState :=
  { s with
    objects := [], isLaunching := false, launchStart := none,
    currentMouse := none }

/-- The `nextLevel` callback (source lines 297-306). -/
def nextLevel (s : GameState) : GameState :=
  let newLevel := min (s.level + 1) (LEVELS.length - 1)
  { s with
    level := newLevel, friction := (getLevel newLevel).friction,
    gravity := (getLevel newLevel).gravity, objects := [] }

/-- The object state after gravity, friction and integration, before the
trail append and the wall bounce: the state against which the wall-collision
test of `updatePhysics` is made. -/
def preCollision (friction : ℚ) (gravity : Bool) (o : GameObject) : GameObject :=
  integrate (applyFriction friction (applyGravity gravity o))

/-- The trail sample recorded by one physics step: the post-integration,
pre-clamp position. -/
def recPos (friction : ℚ) (gravity : Bool) (o : GameObject) : Point :=
  { x := (preCollision friction gravity o).x, y := (preCollision friction gravity o).y }

/-- The post-integration position stays strictly inside the x-walls, so the
x-bounce branch is not taken. -/
def noWallHitX (w friction : ℚ) (gravity : Bool) (o : GameObject) : Prop :=
  o.size < (preCollision friction gravity o).x ∧
  (preCollision friction gravity o).x < w - o.size

/-- The post-integration position stays strictly inside the y-walls, so the
y-bounce branch is not taken. -/
def noWallHitY (h friction : ℚ) (gravity : Bool) (o : GameObject) : Prop :=
  o.size < (preCollision friction gravity o).y ∧
  (preCollision friction gravity o).y < h - o.size

/-- No wall contact at all during one step. -/
def noWallHit (w h friction : ℚ) (gravity : Bool) (o : GameObject) : Prop :=
  noWallHitX w friction gravity o ∧ noWallHitY h friction gravity o

instance (w friction : ℚ) (gravity : Bool) (o : GameObject) :
    Decidable (noWallHitX w friction gravity o) := by
  unfold noWallHitX; infer_instance

instance (h friction : ℚ) (gravity : Bool) (o : GameObject) :
    Decidable (noWallHitY h friction gravity o) := by
  unfold noWallHitY; infer_instance

instance (w h friction : ℚ) (gravity : Bool) (o : GameObject) :
    Decidable (noWallHit w h friction gravity o) := by
  unfold noWallHit; infer_instance

/-- The sequence of trail samples recorded during the first `n` steps. -/
def recList (w h friction : ℚ) (gravity : Bool) (o : GameObject) (n : Nat) :
    List Point :=
  (List.range n).map (fun i => recPos friction gravity ((stepObject w h friction gravity)^[i] o))

/-! ### Basic facts about the stages -/

lemma applyGravity_false (o : GameObject) : applyGravity false o = o := rfl

lemma applyGravity_x (g : Bool) (o : GameObject) : (applyGravity g o).x = o.x := by
  unfold applyGravity; split <;> rfl

lemma applyGravity_y (g : Bool) (o : GameObject) : (applyGravity g o).y = o.y := by
  unfold applyGravity; split <;> rfl

lemma applyGravity_vx (g : Bool) (o : GameObject) : (applyGravity g o).vx = o.vx := by
  unfold applyGravity; split <;> rfl

lemma applyGravity_size (g : Bool) (o : GameObject) : (applyGravity g o).size = o.size := by
  unfold applyGravity; split <;> rfl

lemma applyGravity_trail (g : Bool) (o : GameObject) : (applyGravity g o).trail = o.trail := by
  unfold applyGravity; split <;> rfl

lemma applyGravity_true_vy (o : GameObject) : (applyGravity true o).vy = o.vy + 0.3 := rfl

lemma applyFriction_zero (o : GameObject) : applyFriction 0 o = o := by
  unfold applyFriction; rw [if_neg (lt_irrefl 0)]

lemma applyFriction_size (f : ℚ) (o : GameObject) : (applyFriction f o).size = o.size := by
  unfold applyFriction; split <;> rfl

lemma applyFriction_trail (f : ℚ) (o : GameObject) : (applyFriction f o).trail = o.trail := by
  unfold applyFriction; split <;> rfl

lemma applyFriction_x (f : ℚ) (o : GameObject) : (applyFriction f o).x = o.x := by
  unfold applyFriction; split <;> rfl

lemma applyFriction_y (f : ℚ) (o : GameObject) : (applyFriction f o).y = o.y := by
  unfold applyFriction; split <;> rfl

lemma applyFriction_pos_vx (f : ℚ) (hf : 0 < f) (o : GameObject) :
    (applyFriction f o).vx = o.vx * (1 - f) := by
  unfold applyFriction; rw [if_pos hf]

lemma applyFriction_pos_vy (f : ℚ) (hf : 0 < f) (o : GameObject) :
    (applyFriction f o).vy = o.vy * (1 - f) := by
  unfold applyFriction; rw [if_pos hf]

lemma preCollision_size (f : ℚ) (g : Bool) (o : GameObject) :
    (preCollision f g o).size = o.size := by
  unfold preCollision integrate
  show (applyFriction f (applyGravity g o)).size = o.size
  rw [applyFriction_size, applyGravity_size]

lemma preCollision_trail (f : ℚ) (g : Bool) (o : GameObject) :
    (preCollision f g o).trail = o.trail := by
  unfold preCollision integrate
  show (applyFriction f (applyGravity g o)).trail = o.trail
  rw [applyFriction_trail, applyGravity_trail]

lemma bounceWalls_trail (w h : ℚ) (o : GameObject) :
    (bounceWalls w h o).trail = o.trail := by
  simp only [bounceWalls]
  split_ifs <;> rfl

lemma bounceWalls_size (w h : ℚ) (o : GameObject) :
    (bounceWalls w h o).size = o.size := by
  simp only [bounceWalls]
  split_ifs <;> rfl

/-- The monolithic `stepObject` is exactly the five source blocks composed in
source order. -/
lemma stepObject_decomp (w h f : ℚ) (g : Bool) (o : GameObject) :
    stepObject w h f g o =
      bounceWalls w h (appendTrail (integrate (applyFriction f (applyGravity g o)))) := by
  cases g <;> by_cases hf : 0 < f <;>
    simp [stepObject, bounceWalls, appendTrail, integrate, applyFriction, applyGravity, hf,
          apply_ite GameObject.x, apply_ite GameObject.y, apply_ite GameObject.vx,
          apply_ite GameObject.vy, apply_ite GameObject.size, apply_ite GameObject.trail,
          apply_ite GameObject.mass, apply_ite GameObject.id, apply_ite GameObject.color] <;>
    split_ifs <;> simp

lemma bounceWalls_vx (w h : ℚ) (o : GameObject) :
    (bounceWalls w h o).vx =
      if o.x ≤ o.size ∨ w - o.size ≤ o.x then o.vx * (-0.8) else o.vx := by
  simp only [bounceWalls, apply_ite GameObject.y, apply_ite GameObject.size,
             apply_ite GameObject.vx, ite_self]

lemma bounceWalls_x (w h : ℚ) (o : GameObject) :
    (bounceWalls w h o).x =
      if o.x ≤ o.size ∨ w - o.size ≤ o.x then
        max o.size (min (w - o.size) o.x) else o.x := by
  simp only [bounceWalls, apply_ite GameObject.y, apply_ite GameObject.size,
             apply_ite GameObject.x, ite_self]

lemma bounceWalls_vy (w h : ℚ) (o : GameObject) :
    (bounceWalls w h o).vy =
      if o.y ≤ o.size ∨ h - o.size ≤ o.y then o.vy * (-0.8) else o.vy := by
  simp only [bounceWalls, apply_ite GameObject.y, apply_ite GameObject.size,
             apply_ite GameObject.vy, ite_self]

lemma bounceWalls_y (w h : ℚ) (o : GameObject) :
    (bounceWalls w h o).y =
      if o.y ≤ o.size ∨ h - o.size ≤ o.y then
        max o.size (min (h - o.size) o.y) else o.y := by
  simp only [bounceWalls, apply_ite GameObject.y, apply_ite GameObject.size,
             ite_self]

/-! ### Field characterization of one physics step -/

lemma stepObject_vx (w h f : ℚ) (g : Bool) (o : GameObject) :
    (stepObject w h f g o).vx =
      if (preCollision f g o).x ≤ o.size ∨ w - o.size ≤ (preCollision f g o).x then
        (preCollision f g o).vx * (-0.8)
      else (preCollision f g o).vx := by
  rw [stepObject_decomp]
  show (bounceWalls w h (appendTrail (preCollision f g o))).vx = _
  rw [bounceWalls_vx]
  show (if (preCollision f g o).x ≤ (preCollision f g o).size ∨
           w - (preCollision f g o).size ≤ (preCollision f g o).x then _ else _) = _
  rw [preCollision_size]
  rfl

lemma stepObject_x (w h f : ℚ) (g : Bool) (o : GameObject) :
    (stepObject w h f g o).x =
      if (preCollision f g o).x ≤ o.size ∨ w - o.size ≤ (preCollision f g o).x then
        max o.size (min (w - o.size) (preCollision f g o).x)
      else (preCollision f g o).x := by
  rw [stepObject_decomp]
  show (bounceWalls w h (appendTrail (preCollision f g o))).x = _
  rw [bounceWalls_x]
  show (if (preCollision f g o).x ≤ (preCollision f g o).size ∨
           w - (preCollision f g o).size ≤ (preCollision f g o).x then
          max (preCollision f g o).size (min (w - (preCollision f g o).size)
            (preCollision f g o).x)
        else (preCollision f g o).x) = _
  rw [preCollision_size]

lemma stepObject_vy (w h f : ℚ) (g : Bool) (o : GameObject) :
    (stepObject w h f g o).vy =
      if (preCollision f g o).y ≤ o.size ∨ h - o.size ≤ (preCollision f g o).y then
        (preCollision f g o).vy * (-0.8)
      else (preCollision f g o).vy := by
  rw [stepObject_decomp]
  show (bounceWalls w h (appendTrail (preCollision f g o))).vy = _
  rw [bounceWalls_vy]
  show (if (preCollision f g o).y ≤ (preCollision f g o).size ∨
           h - (preCollision f g o).size ≤ (preCollision f g o).y then _ else _) = _
  rw [preCollision_size]
  rfl

lemma stepObject_y (w h f : ℚ) (g : Bool) (o : GameObject) :
    (stepObject w h f g o).y =
      if (preCollision f g o).y ≤ o.size ∨ h - o.size ≤ (preCollision f g o).y then
        max o.size (min (h - o.size) (preCollision f g o).y)
      else (preCollision f g o).y := by
  rw [stepObject_decomp]
  show (bounceWalls w h (appendTrail (preCollision f g o))).y = _
  rw [bounceWalls_y]
  show (if (preCollision f g o).y ≤ (preCollision f g o).size ∨
           h - (preCollision f g o).size ≤ (preCollision f g o).y then
          max (preCollision f g o).size (min (h - (preCollision f g o).size)
            (preCollision f g o).y)
        else (preCollision f g o).y) = _
  rw [preCollision_size]

lemma stepObject_trail (w h f : ℚ) (g : Bool) (o : GameObject) :
    (stepObject w h f g o).trail = truncTrail (o.trail ++ [recPos f g o]) := by
  rw [stepObject_decomp, bounceWalls_trail]
  show truncTrail ((preCollision f g o).trail ++ [recPos f g o]) = _
  rw [preCollision_trail]

lemma stepObject_size (w h f : ℚ) (g : Bool) (o : GameObject) :
    (stepObject w h f g o).size = o.size := by
  rw [stepObject_decomp, bounceWalls_size]
  show (preCollision f g o).size = o.size
  rw [preCollision_size]

lemma clamp_bounds (lo hi v : ℚ) (hlohi : lo ≤ hi) :
    lo ≤ max lo (min hi v) ∧ max lo (min hi v) ≤ hi :=
  ⟨le_max_left _ _, max_le hlohi (min_le_left _ _)⟩

/-- C1: each physics step transforms an object by applying, in this order:
gravity (`vy += 0.3` when enabled, independent of mass), friction (each
velocity component scaled by `1 - friction` when `friction > 0`, acting on the
gravity-updated `vy`), Euler integration, trail append, and wall bounce with
clamping; the trail records the post-integration position before any wall
clamp. -/
theorem C1_step_order (w h f : ℚ) (g : Bool) (o : GameObject) :
    stepObject w h f g o =
      bounceWalls w h (appendTrail (integrate (applyFriction f (applyGravity g o)))) ∧
    (stepObject w h f g o).trail = truncTrail (o.trail ++ [recPos f g o]) :=
  ⟨stepObject_decomp w h f g o, stepObject_trail w h f g o⟩

/-- C2 (amended): after every physics step the position lies within
`[size, dimension - size]` on both axes, for any incoming velocity, provided
each canvas dimension is at least twice the radius.  (The original claim that
no reachable state has an object outside this range is refuted by
`C2_counterexample`: a launch gesture creates the object at the gesture start
point, which may lie outside the range until its first step.) -/
theorem C2_step_position_in_bounds (w h f : ℚ) (g : Bool) (o : GameObject)
    (hw : 2 * o.size ≤ w) (hh : 2 * o.size ≤ h) :
    (o.size ≤ (stepObject w h f g o).x ∧ (stepObject w h f g o).x ≤ w - o.size) ∧
    (o.size ≤ (stepObject w h f g o).y ∧ (stepObject w h f g o).y ≤ h - o.size) := by
  constructor
  · rw [stepObject_x]
    split_ifs with hc
    · exact clamp_bounds o.size (w - o.size) _ (by linarith)
    · push_neg at hc
      exact ⟨le_of_lt hc.1, le_of_lt hc.2⟩
  · rw [stepObject_y]
    split_ifs with hc
    · exact clamp_bounds o.size (h - o.size) _ (by linarith)
    · push_neg at hc
      exact ⟨le_of_lt hc.1, le_of_lt hc.2⟩

/-- An extreme-velocity object at the canvas center, used to instantiate the
tunnel-prevention bound. -/
def fastObj : GameObject := createObject "id2" "#45b7d1" 400 300 1000 (-1000)

theorem C2_step_position_in_bounds_witness :
    (fastObj.size ≤ (stepObject 800 600 0 false fastObj).x ∧
      (stepObject 800 600 0 false fastObj).x ≤ 800 - fastObj.size) ∧
    (fastObj.size ≤ (stepObject 800 600 0 false fastObj).y ∧
      (stepObject 800 600 0 false fastObj).y ≤ 600 - fastObj.size) :=
  C2_step_position_in_bounds 800 600 0 false fastObj
    (by norm_num [fastObj, createObject]) (by norm_num [fastObj, createObject])

/-- The gesture state after pressing the mouse at `(5, 5)` and dragging to
`(105, 5)`, starting from the initial state: a state reachable through the
mouse handlers alone. -/
def launchNearWallState : GameState :=
  handleCanvasMouseMove 105 5 (handleCanvasMouseDown 5 5 initialGameState)

/-- C2 counterexample: releasing the gesture of `launchNearWallState` puts an
object at `x = 5`, outside `[size, w - size] = [20, w - 20]`, so the range is
not an invariant of every reachable state. -/
theorem C2_counterexample :
    ((handleCanvasMouseUp "id0" "#ff6b6b" launchNearWallState).objects.map
        (fun o => (o.x, o.size))) = [(5, 20)] ∧ (5 : ℚ) < 20 := by
  constructor
  · norm_num [handleCanvasMouseUp, launchNearWallState, handleCanvasMouseMove,
      handleCanvasMouseDown, initialGameState, createObject, getLevel, LEVELS]
  · norm_num

/-- C3: wall collision is handled per axis after integration: whenever the
post-integration position on an axis is at or past `size` or
`dimension - size`, that axis velocity component becomes exactly `-0.8` times
its pre-collision value and the position is clamped into
`[size, dimension - size]`. -/
theorem C3_wall_bounce (w h f : ℚ) (g : Bool) (o : GameObject) :
    ((preCollision f g o).x ≤ o.size ∨ w - o.size ≤ (preCollision f g o).x →
      (stepObject w h f g o).vx = (-0.8) * (preCollision f g o).vx ∧
      (stepObject w h f g o).x =
        max o.size (min (w - o.size) (preCollision f g o).x)) ∧
    ((preCollision f g o).y ≤ o.size ∨ h - o.size ≤ (preCollision f g o).y →
      (stepObject w h f g o).vy = (-0.8) * (preCollision f g o).vy ∧
      (stepObject w h f g o).y =
        max o.size (min (h - o.size) (preCollision f g o).y)) := by
  constructor
  · intro hc
    rw [stepObject_vx, stepObject_x, if_pos hc, if_pos hc]
    exact ⟨mul_comm _ _, rfl⟩
  · intro hc
    rw [stepObject_vy, stepObject_y, if_pos hc, if_pos hc]
    exact ⟨mul_comm _ _, rfl⟩

/-- An object one pixel inside the right-wall boundary, moving right at 50
pixels per frame. -/
def rightWallObj : GameObject := createObject "id1" "#4ecdc4" 779 300 50 0

/-- Scenario of C3: launched from one pixel inside the right boundary at
velocity `(+50, 0)` on an 800-wide canvas, one step gives `vx = -40` and
`x = 780 = 800 - 20`. -/
theorem C3_wall_bounce_witness :
    (stepObject 800 600 0 false rightWallObj).vx = -40 ∧
    (stepObject 800 600 0 false rightWallObj).x = 780 := by
  have hmain := (C3_wall_bounce 800 600 0 false rightWallObj).1
    (by norm_num [preCollision, integrate, applyFriction, applyGravity,
      rightWallObj, createObject])
  refine ⟨?_, ?_⟩
  · rw [hmain.1]
    norm_num [preCollision, integrate, applyFriction, applyGravity,
      rightWallObj, createObject]
  · rw [hmain.2]
    norm_num [preCollision, integrate, applyFriction, applyGravity,
      rightWallObj, createObject]

/-! ### Velocity of a step without wall contact -/

lemma preCollision_vx (f : ℚ) (g : Bool) (o : GameObject) :
    (preCollision f g o).vx = if 0 < f then o.vx * (1 - f) else o.vx := by
  unfold preCollision integrate
  show (applyFriction f (applyGravity g o)).vx = _
  unfold applyFriction
  split_ifs with hf
  · show (applyGravity g o).vx * (1 - f) = o.vx * (1 - f)
    rw [applyGravity_vx]
  · exact applyGravity_vx g o

lemma preCollision_vy (f : ℚ) (g : Bool) (o : GameObject) :
    (preCollision f g o).vy =
      if 0 < f then (applyGravity g o).vy * (1 - f) else (applyGravity g o).vy := by
  unfold preCollision integrate
  show (applyFriction f (applyGravity g o)).vy = _
  unfold applyFriction
  split_ifs with hf <;> rfl

lemma preCollision_zero_false (o : GameObject) :
    preCollision 0 false o = integrate o := by
  unfold preCollision
  rw [applyFriction_zero, applyGravity_false]

lemma stepObject_vx_noHit (w h f : ℚ) (g : Bool) (o : GameObject)
    (hx : noWallHitX w f g o) :
    (stepObject w h f g o).vx = (preCollision f g o).vx := by
  have hnc : ¬((preCollision f g o).x ≤ o.size ∨
      w - o.size ≤ (preCollision f g o).x) := by
    rintro (hc | hc)
    · exact absurd hc (not_le.mpr hx.1)
    · exact absurd hc (not_le.mpr hx.2)
  rw [stepObject_vx, if_neg hnc]

lemma stepObject_x_noHit (w h f : ℚ) (g : Bool) (o : GameObject)
    (hx : noWallHitX w f g o) :
    (stepObject w h f g o).x = (preCollision f g o).x := by
  have hnc : ¬((preCollision f g o).x ≤ o.size ∨
      w - o.size ≤ (preCollision f g o).x) := by
    rintro (hc | hc)
    · exact absurd hc (not_le.mpr hx.1)
    · exact absurd hc (not_le.mpr hx.2)
  rw [stepObject_x, if_neg hnc]

lemma stepObject_vy_noHit (w h f : ℚ) (g : Bool) (o : GameObject)
    (hy : noWallHitY h f g o) :
    (stepObject w h f g o).vy = (preCollision f g o).vy := by
  have hnc : ¬((preCollision f g o).y ≤ o.size ∨
      h - o.size ≤ (preCollision f g o).y) := by
    rintro (hc | hc)
    · exact absurd hc (not_le.mpr hy.1)
    · exact absurd hc (not_le.mpr hy.2)
  rw [stepObject_vy, if_neg hnc]

lemma stepObject_y_noHit (w h f : ℚ) (g : Bool) (o : GameObject)
    (hy : noWallHitY h f g o) :
    (stepObject w h f g o).y = (preCollision f g o).y := by
  have hnc : ¬((preCollision f g o).y ≤ o.size ∨
      h - o.size ≤ (preCollision f g o).y) := by
    rintro (hc | hc)
    · exact absurd hc (not_le.mpr hy.1)
    · exact absurd hc (not_le.mpr hy.2)
  rw [stepObject_y, if_neg hnc]

lemma iterate_size (w h f : ℚ) (g : Bool) (o : GameObject) (n : ℕ) :
    ((stepObject w h f g)^[n] o).size = o.size := by
  induction n with
  | zero => rfl
  | succ m ih => rw [Function.iterate_succ_apply', stepObject_size, ih]

lemma step_velocity_friction (w h f : ℚ) (o : GameObject) (hf : 0 < f)
    (hno : noWallHit w h f false o) :
    (stepObject w h f false o).vx = (1 - f) * o.vx ∧
    (stepObject w h f false o).vy = (1 - f) * o.vy := by
  constructor
  · rw [stepObject_vx_noHit w h f false o hno.1, preCollision_vx, if_pos hf, mul_comm]
  · rw [stepObject_vy_noHit w h f false o hno.2, preCollision_vy, if_pos hf,
        applyGravity_false, mul_comm]

lemma friction_decay_aux (w h f : ℚ) (o : GameObject) (hf : 0 < f) :
    ∀ n : ℕ, (∀ i < n, noWallHit w h f false ((stepObject w h f false)^[i] o)) →
      ((stepObject w h f false)^[n] o).vx = (1 - f) ^ n * o.vx ∧
      ((stepObject w h f false)^[n] o).vy = (1 - f) ^ n * o.vy := by
  intro n
  induction n with
  | zero => intro _; simp
  | succ m ih =>
    intro hnw
    have ihm := ih (fun i hi => hnw i (Nat.lt_succ_of_lt hi))
    have hstep := step_velocity_friction w h f ((stepObject w h f false)^[m] o) hf
      (hnw m (Nat.lt_succ_self m))
    rw [Function.iterate_succ_apply', hstep.1, hstep.2, ihm.1, ihm.2]
    constructor <;> ring

/-- C4: with friction `f` in the documented range `(0, 0.1]` (any `f < 1`
suffices), gravity disabled and no wall contact during the `n` steps, both
velocity components are scaled by exactly `(1 - f)^n`, the squared speed is
scaled by `((1 - f)^n)^2` (so the speed is scaled by `(1 - f)^n`), and a
nonzero initial velocity never becomes zero. -/
theorem C4_friction_decay (w h f : ℚ) (o : GameObject) (n : ℕ)
    (hf : 0 < f) (hf1 : f < 1)
    (hnw : ∀ i < n, noWallHit w h f false ((stepObject w h f false)^[i] o)) :
    ((stepObject w h f false)^[n] o).vx = (1 - f) ^ n * o.vx ∧
    ((stepObject w h f false)^[n] o).vy = (1 - f) ^ n * o.vy ∧
    ((stepObject w h f false)^[n] o).vx ^ 2 + ((stepObject w h f false)^[n] o).vy ^ 2 =
      ((1 - f) ^ n) ^ 2 * (o.vx ^ 2 + o.vy ^ 2) ∧
    (¬(o.vx = 0 ∧ o.vy = 0) →
      ¬(((stepObject w h f false)^[n] o).vx = 0 ∧
        ((stepObject w h f false)^[n] o).vy = 0)) := by
  have main := friction_decay_aux w h f o hf n hnw
  have hpow : (1 - f) ^ n ≠ 0 := pow_ne_zero n (by intro hz; linarith)
  refine ⟨main.1, main.2, ?_, ?_⟩
  · rw [main.1, main.2]; ring
  · intro hv0 hcontra
    apply hv0
    constructor
    · have hx0 := hcontra.1
      rw [main.1] at hx0
      rcases mul_eq_zero.mp hx0 with hz | hz
      · exact absurd hz hpow
      · exact hz
    · have hy0 := hcontra.2
      rw [main.2] at hy0
      rcases mul_eq_zero.mp hy0 with hz | hz
      · exact absurd hz hpow
      · exact hz

/-- A slowly gliding object at the canvas center, used to instantiate the
friction-decay law. -/
def glidingObj : GameObject := createObject "id5" "#dda0dd" 400 300 10 0

theorem C4_friction_decay_witness :
    ((stepObject 800 600 (1/50) false)^[2] glidingObj).vx =
      (1 - 1/50) ^ 2 * glidingObj.vx ∧
    ((stepObject 800 600 (1/50) false)^[2] glidingObj).vy =
      (1 - 1/50) ^ 2 * glidingObj.vy ∧
    ((stepObject 800 600 (1/50) false)^[2] glidingObj).vx ^ 2 +
        ((stepObject 800 600 (1/50) false)^[2] glidingObj).vy ^ 2 =
      ((1 - 1/50) ^ 2) ^ 2 * (glidingObj.vx ^ 2 + glidingObj.vy ^ 2) ∧
    (¬(glidingObj.vx = 0 ∧ glidingObj.vy = 0) →
      ¬(((stepObject 800 600 (1/50) false)^[2] glidingObj).vx = 0 ∧
        ((stepObject 800 600 (1/50) false)^[2] glidingObj).vy = 0)) :=
  C4_friction_decay 800 600 (1/50) glidingObj 2 (by norm_num) (by norm_num)
    (by
      intro i hi
      interval_cases i <;>
        norm_num [noWallHit, noWallHitX, noWallHitY, preCollision, integrate,
          applyFriction, applyGravity, glidingObj, createObject, stepObject,
          truncTrail, Function.iterate_one])

/-- An object resting at the bottom boundary of an 800 by 600 canvas. -/
def floorObj : GameObject := createObject "id3" "#96ceb4" 400 580 0 0

/-- C5 counterexample: with gravity enabled and friction 0, an object resting
at the bottom wall does not gain `0.3` of `vy` in the next step — the wall
bounce flips and damps it to `-0.24` — so `vy` does not increase by the
gravity constant on every physics step. -/
theorem C5_counterexample :
    (stepObject 800 600 0 true floorObj).vy ≠ floorObj.vy + 0.3 := by
  norm_num [stepObject, floorObj, createObject, truncTrail]

/-- C5 (amended): with gravity enabled and friction 0, `vy` grows by exactly
the gravity constant `0.3` (in particular strictly increases) on every physics
step in which the object does not touch a horizontal wall; a wall-contact step
instead flips and damps `vy` (see `C5_counterexample`). -/
theorem C5_gravity_accumulates (w h : ℚ) (o : GameObject)
    (hy : noWallHitY h 0 true o) :
    (stepObject w h 0 true o).vy = o.vy + 0.3 ∧ o.vy < (stepObject w h 0 true o).vy := by
  have hvy : (stepObject w h 0 true o).vy = o.vy + 0.3 := by
    rw [stepObject_vy_noHit w h 0 true o hy, preCollision_vy, if_neg (lt_irrefl 0),
        applyGravity_true_vy]
  exact ⟨hvy, by rw [hvy]; linarith⟩

/-- An object at rest at the canvas center. -/
def fallingObj : GameObject := createObject "id4" "#ffeaa7" 400 300 0 0

theorem C5_gravity_accumulates_witness :
    (stepObject 800 600 0 true fallingObj).vy = fallingObj.vy + 0.3 ∧
    fallingObj.vy < (stepObject 800 600 0 true fallingObj).vy :=
  C5_gravity_accumulates 800 600 fallingObj
    (by norm_num [noWallHitY, preCollision, integrate, applyFriction, applyGravity,
      fallingObj, createObject])

/-! ### The trail as a sliding window -/

lemma truncTrail_eq_drop (t : List Point) :
    truncTrail t = t.drop (t.length - 50) := by
  unfold truncTrail
  split_ifs with hl
  · rfl
  · have h0 : t.length - 50 = 0 := by omega
    rw [h0, List.drop_zero]

lemma recList_length (w h f : ℚ) (g : Bool) (o : GameObject) (n : ℕ) :
    (recList w h f g o n).length = n := by
  simp [recList]

lemma recList_succ (w h f : ℚ) (g : Bool) (o : GameObject) (n : ℕ) :
    recList w h f g o (n + 1) =
      recList w h f g o n ++ [recPos f g ((stepObject w h f g)^[n] o)] := by
  unfold recList
  rw [List.range_succ, List.map_append]
  rfl

lemma truncTrail_drop_append (L : List Point) (p : Point) (n : ℕ)
    (hL : L.length = n) :
    truncTrail (L.drop (n - 50) ++ [p]) = (L ++ [p]).drop (n + 1 - 50) := by
  rw [truncTrail_eq_drop, List.length_append, List.length_drop, hL,
      List.length_singleton]
  rcases Nat.lt_or_ge n 50 with hn | hn
  · have h0 : n - 50 = 0 := by omega
    rw [h0]
    have h1 : n - 0 + 1 - 50 = 0 := by omega
    have h2 : n + 1 - 50 = 0 := by omega
    rw [h1, h2, List.drop_zero, List.drop_zero, List.drop_zero]
  · have h1 : n - (n - 50) + 1 - 50 = 1 := by omega
    rw [h1, List.drop_append_eq_append_drop, List.drop_append_eq_append_drop,
        List.drop_drop, List.length_drop, hL]
    have e2 : 1 - (n - (n - 50)) = 0 := by omega
    have e3 : n + 1 - 50 - n = 0 := by omega
    have e4 : n - 50 + 1 = n + 1 - 50 := by omega
    rw [e2, e3, e4]

lemma trail_after_iterate (w h f : ℚ) (g : Bool) (o : GameObject) (n : ℕ)
    (h0 : o.trail = []) :
    ((stepObject w h f g)^[n] o).trail = (recList w h f g o n).drop (n - 50) := by
  induction n with
  | zero => simpa [recList] using h0
  | succ m ih =>
    rw [Function.iterate_succ_apply', stepObject_trail, ih, recList_succ]
    exact truncTrail_drop_append _ _ m (recList_length w h f g o m)

/-- C6: starting from the empty trail a new object is created with, after `n`
physics steps the trail is exactly the last 50 recorded samples (the whole
recorded sequence dropped up to its final 50 entries, oldest evicted first,
chronological order preserved) and its length is `min n 50`: never more than
50, and exactly 50 once the object has existed for at least 50 steps. -/
theorem C6_trail_window (w h f : ℚ) (g : Bool) (o : GameObject) (n : ℕ)
    (h0 : o.trail = []) :
    ((stepObject w h f g)^[n] o).trail = (recList w h f g o n).drop (n - 50) ∧
    ((stepObject w h f g)^[n] o).trail.length = min n 50 := by
  refine ⟨trail_after_iterate w h f g o n h0, ?_⟩
  rw [trail_after_iterate w h f g o n h0, List.length_drop, recList_length]
  omega

/-- An object used to instantiate the trail-window law. -/
def trailObj : GameObject := createObject "id6" "#ff6b6b" 400 300 10 0

theorem C6_trail_window_witness :
    ((stepObject 800 600 0 false)^[3] trailObj).trail =
      (recList 800 600 0 false trailObj 3).drop (3 - 50) ∧
    ((stepObject 800 600 0 false)^[3] trailObj).trail.length = min 3 50 :=
  C6_trail_window 800 600 0 false trailObj 3 rfl

/-! ### Frictionless, gravity-free motion -/

lemma frictionless_iterate (w h : ℚ) (o : GameObject) (n : ℕ)
    (hx : ∀ i : ℕ, i ≤ n → o.size < o.x + i * o.vx ∧ o.x + i * o.vx < w - o.size)
    (hy : ∀ i : ℕ, i ≤ n → o.size < o.y + i * o.vy ∧ o.y + i * o.vy < h - o.size) :
    ((stepObject w h 0 false)^[n] o).vx = o.vx ∧
    ((stepObject w h 0 false)^[n] o).vy = o.vy ∧
    ((stepObject w h 0 false)^[n] o).x = o.x + n * o.vx ∧
    ((stepObject w h 0 false)^[n] o).y = o.y + n * o.vy := by
  induction n with
  | zero => simp
  | succ m ih =>
    have ihm := ih (fun i hi => hx i (le_trans hi (Nat.le_succ m)))
      (fun i hi => hy i (le_trans hi (Nat.le_succ m)))
    have hsize := iterate_size w h 0 false o m
    have hx1 := hx (m + 1) (le_refl _)
    have hy1 := hy (m + 1) (le_refl _)
    have hxm : noWallHitX w 0 false ((stepObject w h 0 false)^[m] o) := by
      unfold noWallHitX
      rw [preCollision_zero_false]
      show ((stepObject w h 0 false)^[m] o).size <
          ((stepObject w h 0 false)^[m] o).x + ((stepObject w h 0 false)^[m] o).vx ∧
        ((stepObject w h 0 false)^[m] o).x + ((stepObject w h 0 false)^[m] o).vx <
          w - ((stepObject w h 0 false)^[m] o).size
      rw [hsize, ihm.1, ihm.2.2.1]
      constructor
      · have hc := hx1.1
        push_cast at hc ⊢
        nlinarith [hc]
      · have hc := hx1.2
        push_cast at hc ⊢
        nlinarith [hc]
    have hym : noWallHitY h 0 false ((stepObject w h 0 false)^[m] o) := by
      unfold noWallHitY
      rw [preCollision_zero_false]
      show ((stepObject w h 0 false)^[m] o).size <
          ((stepObject w h 0 false)^[m] o).y + ((stepObject w h 0 false)^[m] o).vy ∧
        ((stepObject w h 0 false)^[m] o).y + ((stepObject w h 0 false)^[m] o).vy <
          h - ((stepObject w h 0 false)^[m] o).size
      rw [hsize, ihm.2.1, ihm.2.2.2]
      constructor
      · have hc := hy1.1
        push_cast at hc ⊢
        nlinarith [hc]
      · have hc := hy1.2
        push_cast at hc ⊢
        nlinarith [hc]
    rw [Function.iterate_succ_apply']
    refine ⟨?_, ?_, ?_, ?_⟩
    · rw [stepObject_vx_noHit w h 0 false _ hxm, preCollision_zero_false]
      show ((stepObject w h 0 false)^[m] o).vx = o.vx
      exact ihm.1
    · rw [stepObject_vy_noHit w h 0 false _ hym, preCollision_zero_false]
      show ((stepObject w h 0 false)^[m] o).vy = o.vy
      exact ihm.2.1
    · rw [stepObject_x_noHit w h 0 false _ hxm, preCollision_zero_false]
      show ((stepObject w h 0 false)^[m] o).x + ((stepObject w h 0 false)^[m] o).vx =
        o.x + (m + 1 : ℕ) * o.vx
      rw [ihm.1, ihm.2.2.1]
      push_cast
      ring
    · rw [stepObject_y_noHit w h 0 false _ hym, preCollision_zero_false]
      show ((stepObject w h 0 false)^[m] o).y + ((stepObject w h 0 false)^[m] o).vy =
        o.y + (m + 1 : ℕ) * o.vy
      rw [ihm.2.1, ihm.2.2.2]
      push_cast
      ring

/-- A gesture state mid-launch: start `(300, 300)`, pointer at `(400, 300)`,
Level 0 parameters (friction 0, gravity off). -/
def launchState7 : GameState :=
  { objects := [], friction := 0, gravity := false, isLaunching := true,
    launchStart := some { x := 300, y := 300 },
    currentMouse := some { x := 400, y := 300 },
    level := 0, score := 0, isPlaying := true }

/-- The object produced by releasing the gesture of `launchState7`. -/
def launchedObj : GameObject :=
  createObject "id7" "#45b7d1" 300 300 ((400 - 300) * 0.2) ((300 - 300) * 0.2)

/-- C7: releasing a launch gesture appends exactly one new object (position =
gesture start, velocity = 0.2 times the drag vector, empty trail via
`createObject`), clears the gesture, and adds `abs vx + abs vy` to the score;
with a drag vector of `(100, 0)` the new object has velocity `(20, 0)`, and
after 10 frictionless, gravity-free steps with no wall contact its velocity is
still `(20, 0)` and its position has advanced by `(200, 0)`. -/
theorem C7_launch :
    (∀ (id color : String) (s : GameState) (p q : Point),
        s.isLaunching = true → s.launchStart = some p → s.currentMouse = some q →
        handleCanvasMouseUp id color s =
          { s with
            objects := s.objects ++
              [createObject id color p.x p.y ((q.x - p.x) * 0.2) ((q.y - p.y) * 0.2)],
            isLaunching := false, launchStart := none, currentMouse := none,
            score := s.score + |(q.x - p.x) * 0.2| + |(q.y - p.y) * 0.2| }) ∧
    (handleCanvasMouseUp "id7" "#45b7d1" launchState7).objects = [launchedObj] ∧
    (handleCanvasMouseUp "id7" "#45b7d1" launchState7).score = 20 ∧
    launchedObj.trail = [] ∧
    launchedObj.vx = 20 ∧ launchedObj.vy = 0 ∧
    ((stepObject 800 600 0 false)^[10] launchedObj).vx = 20 ∧
    ((stepObject 800 600 0 false)^[10] launchedObj).vy = 0 ∧
    ((stepObject 800 600 0 false)^[10] launchedObj).x = launchedObj.x + 200 ∧
    ((stepObject 800 600 0 false)^[10] launchedObj).y = launchedObj.y := by
  have hgen : ∀ (id color : String) (s : GameState) (p q : Point),
      s.isLaunching = true → s.launchStart = some p → s.currentMouse = some q →
      handleCanvasMouseUp id color s =
        { s with
          objects := s.objects ++
            [createObject id color p.x p.y ((q.x - p.x) * 0.2) ((q.y - p.y) * 0.2)],
          isLaunching := false, launchStart := none, currentMouse := none,
          score := s.score + |(q.x - p.x) * 0.2| + |(q.y - p.y) * 0.2| } := by
    intro id color s p q hL hs hc
    unfold handleCanvasMouseUp
    rw [hs, hc, hL]
    rfl
  have hx : ∀ i : ℕ, i ≤ 10 →
      launchedObj.size < launchedObj.x + i * launchedObj.vx ∧
      launchedObj.x + i * launchedObj.vx < 800 - launchedObj.size := by
    intro i hi
    have hi1 : (i : ℚ) ≤ 10 := by exact_mod_cast hi
    have hi0 : (0 : ℚ) ≤ (i : ℚ) := Nat.cast_nonneg i
    constructor <;> norm_num [launchedObj, createObject] <;> nlinarith
  have hy : ∀ i : ℕ, i ≤ 10 →
      launchedObj.size < launchedObj.y + i * launchedObj.vy ∧
      launchedObj.y + i * launchedObj.vy < 600 - launchedObj.size := by
    intro i hi
    constructor <;> norm_num [launchedObj, createObject]
  have hiter := frictionless_iterate 800 600 launchedObj 10 hx hy
  refine ⟨hgen, ?_, ?_, ?_, ?_, ?_, ?_, ?_, ?_, ?_⟩
  · rw [hgen "id7" "#45b7d1" launchState7 { x := 300, y := 300 } { x := 400, y := 300 }
      rfl rfl rfl]
    simp [launchState7, launchedObj, createObject]
  · rw [hgen "id7" "#45b7d1" launchState7 { x := 300, y := 300 } { x := 400, y := 300 }
      rfl rfl rfl]
    show launchState7.score + _ + _ = 20
    norm_num [launchState7]
  · rfl
  · norm_num [launchedObj, createObject]
  · norm_num [launchedObj, createObject]
  · rw [hiter.1]
    norm_num [launchedObj, createObject]
  · rw [hiter.2.1]
    norm_num [launchedObj, createObject]
  · rw [hiter.2.2.1]
    norm_num [launchedObj, createObject]
  · rw [hiter.2.2.2]
    norm_num [launchedObj, createObject]

theorem C7_launch_witness :
    handleCanvasMouseUp "id8" "#96ceb4" launchState7 =
      { launchState7 with
        objects := launchState7.objects ++
          [createObject "id8" "#96ceb4" 300 300 (((400 : ℚ) - 300) * 0.2)
            (((300 : ℚ) - 300) * 0.2)],
        isLaunching := false, launchStart := none, currentMouse := none,
        score := launchState7.score + |((400 : ℚ) - 300) * 0.2| +
          |((300 : ℚ) - 300) * 0.2| } :=
  C7_launch.1 "id8" "#96ceb4" launchState7 { x := 300, y := 300 }
    { x := 400, y := 300 } rfl rfl rfl

/-- A Level 0 state holding one object, from which the level is advanced. -/
def levelZeroState : GameState :=
  { initialGameState with objects := [createObject "id9" "#dda0dd" 400 300 5 5] }

/-- C8: advancing the level sets the level index to `min (current + 1) 3`
(clamped at the last preset, no wraparound) and, in the same state update,
empties the object collection and overwrites friction and gravity from the
preset table; the Level 3 preset is `(0.03, true)`, so three advances from
Level 0 leave an empty collection with parameters `(0.03, true)`. -/
theorem C8_next_level (s : GameState) :
    nextLevel s =
      { s with
        level := min (s.level + 1) 3,
        friction := (getLevel (min (s.level + 1) 3)).friction,
        gravity := (getLevel (min (s.level + 1) 3)).gravity,
        objects := [] } ∧
    (getLevel 3).friction = 0.03 ∧ (getLevel 3).gravity = true ∧
    (nextLevel (nextLevel (nextLevel levelZeroState))).level = 3 ∧
    (nextLevel (nextLevel (nextLevel levelZeroState))).objects = [] ∧
    (nextLevel (nextLevel (nextLevel levelZeroState))).friction = 0.03 ∧
    (nextLevel (nextLevel (nextLevel levelZeroState))).gravity = true :=
  ⟨rfl, rfl, rfl, rfl, rfl, rfl, rfl⟩

/-- C9: a pointer release with no gesture in progress (not launching, or no
recorded start, or no recorded current pointer) is rejected silently: the
state, in particular the object collection and the score, is unchanged. -/
theorem C9_silent_reject (id color : String) (s : GameState)
    (hcond : s.isLaunching = false ∨ s.launchStart = none ∨ s.currentMouse = none) :
    handleCanvasMouseUp id color s = s := by
  unfold handleCanvasMouseUp
  rcases hs : s.launchStart with _ | p <;> rcases hc : s.currentMouse with _ | q <;>
    try rfl
  have hL : s.isLaunching = false := by
    rcases hcond with hb | hb | hb
    · exact hb
    · rw [hs] at hb; cases hb
    · rw [hc] at hb; cases hb
  rw [hL]
  rfl

theorem C9_silent_reject_witness :
    handleCanvasMouseUp "id10" "#ff6b6b" initialGameState = initialGameState :=
  C9_silent_reject "id10" "#ff6b6b" initialGameState (Or.inl rfl)

/-- C10: the reset operation empties the object collection and clears the
launch gesture while keeping friction, gravity, level, score and the playing
flag; when the collection is already empty and no gesture is active it is a
no-op. -/
theorem C10_reset (s : GameState) :
    resetGame s =
      { objects := [], friction := s.friction, gravity := s.gravity,
        isLaunching := false, launchStart := none, currentMouse := none,
        level := s.level, score := s.score, isPlaying := s.isPlaying } ∧
    (s.objects = [] → s.isLaunching = false → s.launchStart = none →
      s.currentMouse = none → resetGame s = s) := by
  refine ⟨rfl, ?_⟩
  intro h1 h2 h3 h4
  obtain ⟨obj, fr, gr, il, ls, cm, lv, sc, ip⟩ := s
  simp_all [resetGame]

theorem C10_reset_witness : resetGame initialGameState = initialGameState :=
  (C10_reset initialGameState).2 rfl rfl rfl rfl
